import Mathlib

/-!
Shallow embedding of the Customer Risk & Recommendation Engine
(src/backend/ml_models.py and the risk-level tiering of src/backend/app.py).

Customer attribute mappings are modelled as records of optional rational
values: `none` models an absent key, `some q` a present numeric value, and
`.get(key, default)` becomes `Option.getD`.  Python floats are modelled as
exact rationals.
-/

namespace CustomerSuccess

/-- A customer attribute mapping.  The first six fields are the semantic
profile fields; the last three are the extra keys read by
`InterventionRecommender.get_recommendations`. -/
structure Profile where
  tenure_months : Option ℚ
  monthly_revenue : Option ℚ
  total_interactions : Option ℚ
  support_tickets : Option ℚ
  last_login_days : Option ℚ
  feature_usage_score : Option ℚ
  churn_risk : Option ℚ
  churn_probability : Option ℚ
  health_score : Option ℚ
deriving DecidableEq

/-- Embedding of `ChurnPredictor._rule_based_churn_prediction` (ml_models.py lines 113-143):
sequentially accumulated additive risk score, capped at 1.0. -/
def ruleBasedChurn (d : Profile) : ℚ :=
  let tenure := d.tenure_months.getD 0
  let s1 : ℚ := if tenure < 3 then 0 + 3/10 else if tenure < 12 then 0 + 1/10 else 0
  let revenue := d.monthly_revenue.getD 0
  let s2 : ℚ := if revenue < 50 then s1 + 2/10 else if revenue < 100 then s1 + 1/10 else s1
  let interactions := d.total_interactions.getD 0
  let s3 : ℚ := if interactions < 5 then s2 + 2/10 else s2
  let last_login := d.last_login_days.getD 0
  let s4 : ℚ := if last_login > 30 then s3 + 3/10 else if last_login > 7 then s3 + 1/10 else s3
  min s4 1

/-- Risk-level tiering applied to a churn probability (app.py line 145). -/
def riskLevel (p : ℚ) : String :=
  if p > 7/10 then "High" else if p > 4/10 then "Medium" else "Low"

/-- Embedding of `HealthScorer._calculate_engagement_score` (ml_models.py lines 181-199).
Note the absent-key default of `last_login_days` here is 30, not 0. -/
def engagementScore (d : Profile) : ℚ :=
  let interactions := d.total_interactions.getD 0
  let last_login_days := d.last_login_days.getD 30
  let interaction_score := min (interactions * 2) 50
  let login_score : ℚ :=
    if last_login_days ≤ 1 then 50
    else if last_login_days ≤ 7 then 40
    else if last_login_days ≤ 30 then 20
    else 0
  interaction_score + login_score

/-- Embedding of `HealthScorer._calculate_usage_score` (ml_models.py lines 201-204). -/
def usageScore (d : Profile) : ℚ :=
  min (d.feature_usage_score.getD 0 * 20) 100

/-- Embedding of `HealthScorer._calculate_satisfaction_score` (ml_models.py lines 206-218). -/
def satisfactionScore (d : Profile) : ℚ :=
  let support_tickets := d.support_tickets.getD 0
  if support_tickets = 0 then 100
  else if support_tickets ≤ 2 then 80
  else if support_tickets ≤ 5 then 60
  else 40

/-- Embedding of `HealthScorer._calculate_financial_score` (ml_models.py lines 220-231).
Note the absent-key default of `tenure_months` here is 1, not 0. -/
def financialScore (d : Profile) : ℚ :=
  let revenue := d.monthly_revenue.getD 0
  let tenure := d.tenure_months.getD 1
  let revenue_score := min (revenue / 10) 70
  let tenure_bonus := min (tenure * 2) 30
  revenue_score + tenure_bonus

/-- Embedding of `HealthScorer._calculate_support_score` (ml_models.py lines 233-247). -/
def supportScore (d : Profile) : ℚ :=
  let support_tickets := d.support_tickets.getD 0
  if support_tickets = 0 then 100
  else if support_tickets ≤ 1 then 90
  else if support_tickets ≤ 3 then 70
  else if support_tickets ≤ 5 then 50
  else 30

/-- Embedding of `HealthScorer.calculate_health_score` (ml_models.py lines 157-179):
weighted average of the five sub-scores (weights 0.3, 0.25, 0.2, 0.15, 0.1),
clamped to [0, 100]. -/
def calculateHealthScore (d : Profile) : ℚ :=
  let health_score :=
    engagementScore d * (3/10) + usageScore d * (25/100) +
    satisfactionScore d * (2/10) + financialScore d * (15/100) +
    supportScore d * (1/10)
  min (max health_score 0) 100

/-- Embedding of `HealthScorer.get_health_status` (ml_models.py lines 249-258). -/
def getHealthStatus (health_score : ℚ) : String :=
  if health_score ≥ 90 then "Excellent"
  else if health_score ≥ 70 then "Good"
  else if health_score ≥ 50 then "Fair"
  else "Poor"

/-! ## InterventionRecommender (ml_models.py lines 260-372) -/

/-- Strategy pool `high_churn_low_engagement` (ml_models.py lines 265-270). -/
def highChurnLowEngagement : List String :=
  ["Schedule personal check-in call",
   "Offer product training session",
   "Provide dedicated customer success manager",
   "Send personalized onboarding materials"]

/-- Strategy pool `high_churn_low_usage` (ml_models.py lines 271-276). -/
def highChurnLowUsage : List String :=
  ["Offer feature demo session",
   "Provide use case examples",
   "Schedule product walkthrough",
   "Send tutorial videos"]

/-- Strategy pool `high_churn_support_issues` (ml_models.py lines 277-282). -/
def highChurnSupportIssues : List String :=
  ["Priority support queue assignment",
   "Technical expert consultation",
   "Product feedback session",
   "Escalate to development team"]

/-- Strategy pool `low_revenue` (ml_models.py lines 283-288). -/
def lowRevenuePool : List String :=
  ["Discuss upgrade opportunities",
   "Show ROI calculations",
   "Offer limited-time discount",
   "Highlight premium features"]

/-- Strategy pool `engagement_drop` (ml_models.py lines 289-294). -/
def engagementDropPool : List String :=
  ["Send re-engagement email campaign",
   "Offer new feature preview",
   "Schedule product update call",
   "Provide industry insights"]

/-- The churn-risk value used by `get_recommendations` (ml_models.py lines
301-303): `churn_probability` overrides `churn_risk` when present;
`churn_risk` defaults to 0. -/
def riskUsed (d : Profile) : ℚ :=
  match d.churn_probability with
  | some p => p
  | none => d.churn_risk.getD 0

/-- Embedding of `InterventionRecommender._get_engagement_level` (ml_models.py lines
348-359).  Note the absent-key default of `last_login_days` here is 30. -/
def engagementLevel (d : Profile) : ℚ :=
  let interactions := d.total_interactions.getD 0
  let last_login := d.last_login_days.getD 30
  let engagement_score := interactions * 10
  if last_login ≤ 7 then engagement_score + 20
  else if last_login ≤ 30 then engagement_score + 10
  else engagement_score

/-- The candidate action strings appended by `get_recommendations`
(ml_models.py lines 307-331), in order, before deduplication and
truncation. -/
def candidateActions (d : Profile) : List String :=
  let churn_risk := riskUsed d
  let tierRecs : List String :=
    if churn_risk > 7/10 then
      (if engagementLevel d < 50 then highChurnLowEngagement.take 2 else []) ++
      (if d.feature_usage_score.getD 0 < 3 then highChurnLowUsage.take 2 else []) ++
      (if d.support_tickets.getD 0 > 3 then highChurnSupportIssues.take 1 else [])
    else if churn_risk > 4/10 then
      (if d.last_login_days.getD 0 > 14 then engagementDropPool.take 2 else [])
    else []
  tierRecs ++ (if d.monthly_revenue.getD 0 < 100 then lowRevenuePool.take 1 else [])

/-- Deduplication keeping first occurrences, with an accumulator of already
seen strings: the semantics of Python `list(dict.fromkeys(...))`
(ml_models.py line 334). -/
def dedupFirstAux (seen : List String) : List String → List String
  | [] => []
  | a :: as =>
    if a ∈ seen then dedupFirstAux seen as
    else a :: dedupFirstAux (a :: seen) as

/-- Embedding of `list(dict.fromkeys(recommendations))` (ml_models.py line 334). -/
def dedupFirst (l : List String) : List String :=
  dedupFirstAux [] l

/-- Priority by position (ml_models.py line 339). -/
def priorityFor (i : ℕ) : String :=
  if i < 2 then "High" else if i < 4 then "Medium" else "Low"

/-- Substring containment, the semantics of Python `pat in s` on strings. -/
def strHasSub (s pat : String) : Bool :=
  let ps := pat.toList
  s.toList.tails.any (fun t => t.take ps.length == ps)

/-- Python `str.lower()` (character-wise lowercasing). -/
def strLower (s : String) : String :=
  String.mk (s.data.map Char.toLower)

/-- Embedding of `InterventionRecommender._categorize_recommendation`
(ml_models.py lines 361-372). -/
def categorizeRecommendation (r : String) : String :=
  let s := strLower r
  if strHasSub s "call" || strHasSub s "personal" then "Personal Outreach"
  else if strHasSub s "training" || strHasSub s "demo" then "Product Education"
  else if strHasSub s "support" || strHasSub s "technical" then "Support Enhancement"
  else if strHasSub s "discount" || strHasSub s "upgrade" then "Commercial"
  else "Engagement"

/-- A prioritized recommendation entry (ml_models.py lines 340-344). -/
structure Recommendation where
  action : String
  priority : String
  category : String
deriving DecidableEq

/-- Embedding of `InterventionRecommender.get_recommendations` (ml_models.py
lines 297-346): append candidates, deduplicate keeping first occurrences, keep
the first 5, then attach position-based priorities and keyword
categories. -/
def getRecommendations (d : Profile) : List Recommendation :=
  let recs := (dedupFirst (candidateActions d)).take 5
  recs.enum.map (fun ir =>
    { action := ir.2, priority := priorityFor ir.1,
      category := categorizeRecommendation ir.2 })

/-- The same computation as `getRecommendations` with the deduplication step
omitted (used to state claim C10's refinement equivalence). -/
def getRecommendationsNoDedup (d : Profile) : List Recommendation :=
  let recs := (candidateActions d).take 5
  recs.enum.map (fun ir =>
    { action := ir.2, priority := priorityFor ir.1,
      category := categorizeRecommendation ir.2 })

/-! ## Field setters

Explicit single-field updates of a `Profile`, used to state claims about
absent-versus-present fields. -/

/-- Replace the `tenure_months` field. -/
def setTenure (v : Option ℚ) (d : Profile) : Profile :=
  ⟨v, d.monthly_revenue, d.total_interactions, d.support_tickets,
   d.last_login_days, d.feature_usage_score, d.churn_risk,
   d.churn_probability, d.health_score⟩

/-- Replace the `monthly_revenue` field. -/
def setRevenue (v : Option ℚ) (d : Profile) : Profile :=
  ⟨d.tenure_months, v, d.total_interactions, d.support_tickets,
   d.last_login_days, d.feature_usage_score, d.churn_risk,
   d.churn_probability, d.health_score⟩

/-- Replace the `total_interactions` field. -/
def setInteractions (v : Option ℚ) (d : Profile) : Profile :=
  ⟨d.tenure_months, d.monthly_revenue, v, d.support_tickets,
   d.last_login_days, d.feature_usage_score, d.churn_risk,
   d.churn_probability, d.health_score⟩

/-- Replace the `support_tickets` field. -/
def setTickets (v : Option ℚ) (d : Profile) : Profile :=
  ⟨d.tenure_months, d.monthly_revenue, d.total_interactions, v,
   d.last_login_days, d.feature_usage_score, d.churn_risk,
   d.churn_probability, d.health_score⟩

/-- Replace the `last_login_days` field. -/
def setLastLogin (v : Option ℚ) (d : Profile) : Profile :=
  ⟨d.tenure_months, d.monthly_revenue, d.total_interactions,
   d.support_tickets, v, d.feature_usage_score, d.churn_risk,
   d.churn_probability, d.health_score⟩

/-- Replace the `feature_usage_score` field. -/
def setUsage (v : Option ℚ) (d : Profile) : Profile :=
  ⟨d.tenure_months, d.monthly_revenue, d.total_interactions,
   d.support_tickets, d.last_login_days, v, d.churn_risk,
   d.churn_probability, d.health_score⟩

/-- Replace the `churn_risk` field. -/
def setChurnRisk (v : Option ℚ) (d : Profile) : Profile :=
  ⟨d.tenure_months, d.monthly_revenue, d.total_interactions,
   d.support_tickets, d.last_login_days, d.feature_usage_score, v,
   d.churn_probability, d.health_score⟩

/-! ## Dynamically typed model of `predict_churn`

Python attribute values need not be numbers; a non-numeric value makes the
comparisons inside `_rule_based_churn_prediction` raise `TypeError`.  To
settle the never-raises claim we model values as numbers-or-strings and
comparisons as fallible. -/

/-- A dynamically typed Python attribute value: a number or a string. -/
inductive PyVal where
  | num : ℚ → PyVal
  | str : String → PyVal
deriving DecidableEq

/-- A customer attribute mapping with dynamically typed values (only the
six profile fields, which are all `predict_churn` reads). -/
structure DynProfile where
  tenure_months : Option PyVal
  monthly_revenue : Option PyVal
  total_interactions : Option PyVal
  support_tickets : Option PyVal
  last_login_days : Option PyVal
  feature_usage_score : Option PyVal
deriving DecidableEq

/-- Whether an optional attribute value is absent or numeric (a present
string value makes the rule-based comparisons raise). -/
def isNumVal : Option PyVal → Bool
  | some (.str _) => false
  | _ => true

/-- The tenure block of `_rule_based_churn_prediction` (ml_models.py lines
118-122) on a dynamic value: comparing a string raises `TypeError`. -/
def tenureInc : PyVal → Except Unit ℚ
  | .str _ => .error ()
  | .num t => .ok (if t < 3 then 3/10 else if t < 12 then 1/10 else 0)

/-- The revenue block (ml_models.py lines 125-129). -/
def revenueInc : PyVal → Except Unit ℚ
  | .str _ => .error ()
  | .num r => .ok (if r < 50 then 2/10 else if r < 100 then 1/10 else 0)

/-- The interactions block (ml_models.py lines 132-134). -/
def interactionsInc : PyVal → Except Unit ℚ
  | .str _ => .error ()
  | .num i => .ok (if i < 5 then 2/10 else 0)

/-- The last-login block (ml_models.py lines 137-141). -/
def lastLoginInc : PyVal → Except Unit ℚ
  | .str _ => .error ()
  | .num l => .ok (if l > 30 then 3/10 else if l > 7 then 1/10 else 0)

/-- Embedding of `_rule_based_churn_prediction` on a dynamically typed mapping: the four
blocks are evaluated in source order and the first `TypeError` propagates;
otherwise the increments are summed and capped at 1.0. -/
def ruleBasedDyn (d : DynProfile) : Except Unit ℚ :=
  match tenureInc (d.tenure_months.getD (.num 0)) with
  | .error e => .error e
  | .ok i1 =>
    match revenueInc (d.monthly_revenue.getD (.num 0)) with
    | .error e => .error e
    | .ok i2 =>
      match interactionsInc (d.total_interactions.getD (.num 0)) with
      | .error e => .error e
      | .ok i3 =>
        match lastLoginInc (d.last_login_days.getD (.num 0)) with
        | .error e => .error e
        | .ok i4 => .ok (min (i1 + i2 + i3 + i4) 1)

/-- Embedding of `ChurnPredictor.predict_churn` (ml_models.py lines 98-111).  The trained
artifact is modelled as an optional fallible function (`none` when no model
loaded).  In trained mode a successful prediction is returned as is and a
failure falls into the `except` handler, which runs the rule-based
estimator; with no model the rule-based estimator runs inside the `try`,
and if it raises, the `except` handler runs it again, so its error
propagates to the caller. -/
def predictChurn (model : Option (DynProfile → Except Unit ℚ))
    (d : DynProfile) : Except Unit ℚ :=
  match model with
  | some f =>
    match f d with
    | .ok p => .ok p
    | .error _ => ruleBasedDyn d
  | none =>
    match ruleBasedDyn d with
    | .ok p => .ok p
    | .error _ => ruleBasedDyn d

/-! ## Spec-side definitions

These two definitions follow the words of the claims (not the source) and
are compared against the source-derived definitions above. -/

/-- Claim C1's increment table, written from the claim's words: the sum of
the triggered increments, one bucket per signal (+0.3 tenure < 3, +0.1
tenure 3-11; +0.2 revenue < 50, +0.1 revenue 50-99; +0.2 interactions < 5;
+0.3 last login > 30, +0.1 last login 8-30). -/
def specChurnIncrementSum (tenure revenue interactions last_login : ℚ) : ℚ :=
  (if tenure < 3 then 3/10 else if 3 ≤ tenure ∧ tenure < 12 then 1/10 else 0) +
  (if revenue < 50 then 2/10 else if 50 ≤ revenue ∧ revenue < 100 then 1/10 else 0) +
  (if interactions < 5 then 2/10 else 0) +
  (if last_login > 30 then 3/10 else if 7 < last_login ∧ last_login ≤ 30 then 1/10 else 0)

/-- Claim C8's categorization rule, written from the claim's words:
first-matching keyword, case-insensitively, in the fixed precedence order
call/personal, training/demo, support/technical, discount/upgrade, else
Engagement. -/
def specCategorize (r : String) : String :=
  if strHasSub (strLower r) "call" || strHasSub (strLower r) "personal" then
    "Personal Outreach"
  else if strHasSub (strLower r) "training" || strHasSub (strLower r) "demo" then
    "Product Education"
  else if strHasSub (strLower r) "support" || strHasSub (strLower r) "technical" then
    "Support Enhancement"
  else if strHasSub (strLower r) "discount" || strHasSub (strLower r) "upgrade" then
    "Commercial"
  else "Engagement"

/-! ## Concrete profiles used by the scenario claims -/

/-- The high-risk scenario profile of claim C6 (also the input of the
repository test `test_churn_prediction_high_risk`). -/
def profileHighRisk : Profile :=
  ⟨some 3, some 45, some 8, some 6, some 21, some (12/10), none, none, none⟩

/-- The recommendations scenario profile of claim C7 (also the input of the
repository test `test_intervention_recommendations`), including its
`churn_probability` key 0.65. -/
def profileRecScenario : Profile :=
  ⟨some 6, some 75, some 15, some 4, some 14, some (21/10), none,
   some (65/100), none⟩

/-- A profile with every key absent. -/
def profileEmpty : Profile :=
  ⟨none, none, none, none, none, none, none, none, none⟩

/-- A high-churn profile (churn_probability 0.8, 3 interactions, all other
keys absent), used to show that an absent `last_login_days` is not
equivalent to 0 for the recommender. -/
def profileHighNoLogin : Profile :=
  ⟨none, none, some 3, none, none, none, none, some (8/10), none⟩

/-- A medium-churn profile (churn_probability 0.5, all other keys absent),
used to show that an absent `last_login_days` is not equivalent to 30 for
the recommender. -/
def profileMedNoLogin : Profile :=
  ⟨none, none, none, none, none, none, none, some (5/10), none⟩

/-- A dynamically typed profile whose `tenure_months` value is a string:
the comparison `tenure < 3` raises `TypeError` in Python. -/
def dynProfileBad : DynProfile :=
  ⟨some (.str "unknown"), none, none, none, none, none⟩

/-- A dynamically typed all-numeric profile. -/
def dynProfileNum : DynProfile :=
  ⟨some (.num 3), some (.num 45), some (.num 8), some (.num 6),
   some (.num 21), some (.num (12/10))⟩

/-! ## Theorems -/

/-- C2: for every profile the rule-based churn probability lies in [0, 1]
and the health score lies in [0, 100]; the health score is clamped
explicitly and the rule-based score is capped by `min (...) 1`, so an
out-of-range output is impossible (in particular for every valid profile
with non-negative fields). -/
theorem churn_and_health_in_range (d : Profile) :
    0 ≤ ruleBasedChurn d ∧ ruleBasedChurn d ≤ 1 ∧
    0 ≤ calculateHealthScore d ∧ calculateHealthScore d ≤ 100 := by
  refine ⟨?_, min_le_right _ _, le_min (le_max_right _ _) (by norm_num),
    min_le_right _ _⟩
  simp only [ruleBasedChurn]
  refine le_min ?_ (by norm_num)
  split_ifs <;> norm_num

/-- C6: evaluation of the rule-based estimator at the spec's high-risk
scenario profile {tenure 3, revenue 45, interactions 8, tickets 6,
last_login 21, usage 1.2}: the triggered increments are 0.1 (tenure 3-11)
+ 0.2 (revenue < 50) + 0.1 (login 8-30) = 0.4, which is not greater than
0.5 and is tiered Low, contradicting the claimed High tier (and the
repository test asserting probability > 0.5 on this input). -/
theorem ruleBasedChurn_highRiskScenario :
    ruleBasedChurn profileHighRisk = 2/5 ∧
    ¬ ruleBasedChurn profileHighRisk > 1/2 ∧
    riskLevel (ruleBasedChurn profileHighRisk) = "Low" := by
  have h : ruleBasedChurn profileHighRisk = 2/5 := by
    norm_num [ruleBasedChurn, profileHighRisk]
  refine ⟨h, by rw [h]; norm_num, by rw [h]; norm_num [riskLevel]⟩

/-- C7: on the recommendations scenario profile {tenure 6, revenue 75,
interactions 15, tickets 4, last_login 14, usage 2.1, churn_probability
0.65}, the risk used is 0.65 (medium tier), the engagement_drop pool is not
triggered (14 is not > 14), the low_revenue pool is triggered (75 < 100),
and the result is exactly the first low_revenue action with priority High
at position 0. -/
theorem recommendations_scenario :
    riskUsed profileRecScenario = 13/20 ∧
    lowRevenuePool.take 1 = ["Discuss upgrade opportunities"] ∧
    getRecommendations profileRecScenario =
      [⟨"Discuss upgrade opportunities", "High", "Commercial"⟩] := by
  refine ⟨by norm_num [riskUsed, profileRecScenario], rfl, ?_⟩
  norm_num [getRecommendations, candidateActions, riskUsed, profileRecScenario,
    engagementLevel, dedupFirst, dedupFirstAux, priorityFor]
  decide

/-- The sequentially accumulated rule-based score equals the sum of the
four independent per-signal buckets (with the source's conditions). -/
lemma ruleBasedChurn_as_sum (d : Profile) :
    ruleBasedChurn d = min (
      (if d.tenure_months.getD 0 < 3 then (3:ℚ)/10
       else if d.tenure_months.getD 0 < 12 then 1/10 else 0) +
      (if d.monthly_revenue.getD 0 < 50 then (2:ℚ)/10
       else if d.monthly_revenue.getD 0 < 100 then 1/10 else 0) +
      (if d.total_interactions.getD 0 < 5 then (2:ℚ)/10 else 0) +
      (if d.last_login_days.getD 0 > 30 then (3:ℚ)/10
       else if d.last_login_days.getD 0 > 7 then 1/10 else 0)) 1 := by
  simp only [ruleBasedChurn]
  split_ifs <;> norm_num

/-- The source's else-branch condition `tenure < 12` coincides with the
claim's interval condition `3 ≤ tenure < 12`. -/
lemma tenure_bucket (t : ℚ) :
    (if t < 3 then (3:ℚ)/10 else if t < 12 then 1/10 else 0) =
    (if t < 3 then (3:ℚ)/10 else if 3 ≤ t ∧ t < 12 then 1/10 else 0) := by
  split_ifs with h1 h2 h3 h4 <;>
    first
      | rfl
      | exact absurd ⟨le_of_not_lt h1, h2⟩ h3
      | exact absurd h4.2 h2

/-- The source's else-branch condition `revenue < 100` coincides with the
claim's interval condition `50 ≤ revenue < 100`. -/
lemma revenue_bucket (r : ℚ) :
    (if r < 50 then (2:ℚ)/10 else if r < 100 then 1/10 else 0) =
    (if r < 50 then (2:ℚ)/10 else if 50 ≤ r ∧ r < 100 then 1/10 else 0) := by
  split_ifs with h1 h2 h3 h4 <;>
    first
      | rfl
      | exact absurd ⟨le_of_not_lt h1, h2⟩ h3
      | exact absurd h4.2 h2

/-- The source's else-branch condition `last_login > 7` coincides with the
claim's interval condition `7 < last_login ≤ 30`. -/
lemma login_bucket (l : ℚ) :
    (if l > 30 then (3:ℚ)/10 else if l > 7 then 1/10 else 0) =
    (if l > 30 then (3:ℚ)/10 else if 7 < l ∧ l ≤ 30 then 1/10 else 0) := by
  split_ifs with h1 h2 h3 h4 <;>
    first
      | rfl
      | exact absurd ⟨h2, le_of_not_lt h1⟩ h3
      | exact absurd h4.1 h2

/-- C1: the rule-based estimator returns exactly
`min (sum of the triggered increments) 1`, with one increment per signal as
in the claim's table (+0.3 tenure < 3, else +0.1 tenure 3-11; +0.2 revenue
< 50, else +0.1 revenue 50-99; +0.2 interactions < 5; +0.3 last login >
30, else +0.1 last login 8-30), each signal contributing independently. -/
theorem rule_based_matches_increment_table (d : Profile) :
    ruleBasedChurn d =
      min (specChurnIncrementSum (d.tenure_months.getD 0)
        (d.monthly_revenue.getD 0) (d.total_interactions.getD 0)
        (d.last_login_days.getD 0)) 1 := by
  rw [ruleBasedChurn_as_sum]
  simp only [specChurnIncrementSum]
  rw [tenure_bucket, revenue_bucket, login_bucket]

/-- C3 counterexample: an absent field is NOT always treated as 0.  For the
health score, a profile with `last_login_days` absent differs from the same
profile with `last_login_days` present and equal to 0 (the engagement
sub-score defaults an absent `last_login_days` to 30, scoring the
login-recency bucket 20 instead of 50). -/
theorem absent_login_not_zero_for_health :
    calculateHealthScore profileEmpty ≠
      calculateHealthScore (setLastLogin (some 0) profileEmpty) := by
  norm_num [calculateHealthScore, engagementScore, usageScore,
    satisfactionScore, financialScore, supportScore, profileEmpty,
    setLastLogin]

/-- C3 amended: the rule-based estimator treats every absent field as 0;
the health score treats every absent field as 0 except `last_login_days`
(treated as 30) and `tenure_months` (treated as 1); the recommender treats
every absent field as 0 except `last_login_days`, whose two reads use
different defaults — 30 in the engagement level but 0 in the medium-tier
recency check — so for the recommender an absent `last_login_days` is
equivalent to neither a present 0 nor a present 30. -/
theorem absent_field_defaults :
    (∀ d : Profile,
      (ruleBasedChurn (setTenure none d) = ruleBasedChurn (setTenure (some 0) d) ∧
       ruleBasedChurn (setRevenue none d) = ruleBasedChurn (setRevenue (some 0) d) ∧
       ruleBasedChurn (setInteractions none d) = ruleBasedChurn (setInteractions (some 0) d) ∧
       ruleBasedChurn (setTickets none d) = ruleBasedChurn (setTickets (some 0) d) ∧
       ruleBasedChurn (setLastLogin none d) = ruleBasedChurn (setLastLogin (some 0) d) ∧
       ruleBasedChurn (setUsage none d) = ruleBasedChurn (setUsage (some 0) d)) ∧
      (calculateHealthScore (setRevenue none d) = calculateHealthScore (setRevenue (some 0) d) ∧
       calculateHealthScore (setInteractions none d) = calculateHealthScore (setInteractions (some 0) d) ∧
       calculateHealthScore (setTickets none d) = calculateHealthScore (setTickets (some 0) d) ∧
       calculateHealthScore (setUsage none d) = calculateHealthScore (setUsage (some 0) d) ∧
       calculateHealthScore (setLastLogin none d) = calculateHealthScore (setLastLogin (some 30) d) ∧
       calculateHealthScore (setTenure none d) = calculateHealthScore (setTenure (some 1) d)) ∧
      (getRecommendations (setTenure none d) = getRecommendations (setTenure (some 0) d) ∧
       getRecommendations (setRevenue none d) = getRecommendations (setRevenue (some 0) d) ∧
       getRecommendations (setInteractions none d) = getRecommendations (setInteractions (some 0) d) ∧
       getRecommendations (setTickets none d) = getRecommendations (setTickets (some 0) d) ∧
       getRecommendations (setUsage none d) = getRecommendations (setUsage (some 0) d) ∧
       engagementLevel (setLastLogin none d) = engagementLevel (setLastLogin (some 30) d))) ∧
    getRecommendations profileHighNoLogin ≠
      getRecommendations (setLastLogin (some 0) profileHighNoLogin) ∧
    getRecommendations profileMedNoLogin ≠
      getRecommendations (setLastLogin (some 30) profileMedNoLogin) := by
  refine ⟨fun d => ⟨⟨rfl, rfl, rfl, rfl, rfl, rfl⟩,
    ⟨rfl, rfl, rfl, rfl, rfl, rfl⟩, rfl, rfl, rfl, rfl, rfl, rfl⟩, ?_, ?_⟩
  · norm_num [getRecommendations, candidateActions, riskUsed,
      profileHighNoLogin, engagementLevel, setLastLogin, dedupFirst,
      dedupFirstAux, priorityFor]
    decide
  · norm_num [getRecommendations, candidateActions, riskUsed,
      profileMedNoLogin, engagementLevel, setLastLogin, dedupFirst,
      dedupFirstAux, priorityFor]
    decide

/-- Every element produced by `dedupFirstAux seen l` avoids `seen`. -/
lemma dedupFirstAux_not_mem_seen (seen l : List String) :
    ∀ a ∈ dedupFirstAux seen l, a ∉ seen := by
  induction l generalizing seen with
  | nil => simp [dedupFirstAux]
  | cons b bs ih =>
    intro a ha
    simp only [dedupFirstAux] at ha
    by_cases hb : b ∈ seen
    · rw [if_pos hb] at ha
      exact ih seen a ha
    · rw [if_neg hb] at ha
      rcases List.mem_cons.mp ha with h | h
      · subst h; exact hb
      · intro hs
        exact ih (b :: seen) a h (List.mem_cons_of_mem _ hs)

/-- `dedupFirstAux` produces a list without duplicates. -/
lemma dedupFirstAux_nodup (seen l : List String) :
    (dedupFirstAux seen l).Nodup := by
  induction l generalizing seen with
  | nil => simp [dedupFirstAux]
  | cons b bs ih =>
    simp only [dedupFirstAux]
    by_cases hb : b ∈ seen
    · rw [if_pos hb]; exact ih seen
    · rw [if_neg hb]
      refine List.nodup_cons.mpr ⟨?_, ih (b :: seen)⟩
      intro hmem
      exact dedupFirstAux_not_mem_seen _ _ b hmem (List.mem_cons_self b seen)

/-- The action strings of the returned recommendations are exactly the
deduplicated, truncated candidate list. -/
lemma map_action_getRecommendations (d : Profile) :
    (getRecommendations d).map Recommendation.action =
    (dedupFirst (candidateActions d)).take 5 := by
  simp only [getRecommendations]
  rw [List.map_map]
  have hcomp : (Recommendation.action ∘ fun ir : ℕ × String =>
      Recommendation.mk ir.2 (priorityFor ir.1) (categorizeRecommendation ir.2)) =
      Prod.snd := rfl
  rw [hcomp, List.enum_map_snd]

/-- C4: for every profile, the recommendation list has pairwise distinct
action strings, has length at most 5, and its priorities are assigned by
position: indices 0-1 High, 2-3 Medium, index 4 Low (hence monotonically
non-increasing by position). -/
theorem recommendations_nodup_bounded_prioritized (d : Profile) :
    ((getRecommendations d).map Recommendation.action).Nodup ∧
    (getRecommendations d).length ≤ 5 ∧
    ∀ i (h : i < (getRecommendations d).length),
      ((getRecommendations d).get ⟨i, h⟩).priority =
        (if i < 2 then "High" else if i < 4 then "Medium" else "Low") := by
  refine ⟨?_, ?_, ?_⟩
  · rw [map_action_getRecommendations]
    exact (dedupFirstAux_nodup [] _).sublist (List.take_sublist _ _)
  · have := congrArg List.length (map_action_getRecommendations d)
    rw [List.length_map] at this
    rw [this]
    exact List.length_take_le _ _
  · intro i h
    simp only [getRecommendations, List.get_eq_getElem, List.getElem_map]
    have hlen : i < ((dedupFirst (candidateActions d)).take 5).enum.length := by
      simpa [getRecommendations] using h
    rw [List.getElem_enum]
    rfl

/-- The recommendation list of the C7 scenario profile is non-empty. -/
lemma recScenario_length_pos :
    0 < (getRecommendations profileRecScenario).length := by
  have heq : getRecommendations profileRecScenario =
      [⟨"Discuss upgrade opportunities", "High", "Commercial"⟩] := by
    norm_num [getRecommendations, candidateActions, riskUsed,
      profileRecScenario, engagementLevel, dedupFirst, dedupFirstAux,
      priorityFor]
    decide
  rw [heq]
  decide

/-- Witness for C4 at the concrete scenario profile: position 0 carries
priority High. -/
theorem recommendations_prioritized_witness :
    ((getRecommendations profileRecScenario).get
      ⟨0, recScenario_length_pos⟩).priority = "High" := by
  have h := (recommendations_nodup_bounded_prioritized
    profileRecScenario).2.2 0 recScenario_length_pos
  simpa using h

/-- `_categorize_recommendation` always returns one of the five category
labels. -/
lemma categorize_mem_five (s : String) :
    categorizeRecommendation s ∈
      ["Personal Outreach", "Product Education", "Support Enhancement",
       "Commercial", "Engagement"] := by
  simp only [categorizeRecommendation]
  split_ifs <;> simp

/-- C8: categorization is by first matching keyword, case-insensitively, in
the fixed precedence order call/personal, training/demo, support/technical,
discount/upgrade, else Engagement (the source function coincides with the
claim's rule on every string), and every returned recommendation's category
is one of the five labels. -/
theorem categorize_precedence :
    (∀ s : String, categorizeRecommendation s = specCategorize s) ∧
    ∀ d : Profile, ∀ r ∈ getRecommendations d,
      r.category ∈ ["Personal Outreach", "Product Education",
        "Support Enhancement", "Commercial", "Engagement"] := by
  constructor
  · intro s
    rfl
  · intro d r hr
    simp only [getRecommendations, List.mem_map] at hr
    obtain ⟨ir, _, rfl⟩ := hr
    exact categorize_mem_five ir.2

/-- The C7 scenario's single recommendation is a member of its
recommendation list. -/
lemma recScenario_rec_mem :
    (⟨"Discuss upgrade opportunities", "High", "Commercial"⟩ : Recommendation) ∈
      getRecommendations profileRecScenario := by
  have heq : getRecommendations profileRecScenario =
      [⟨"Discuss upgrade opportunities", "High", "Commercial"⟩] := by
    norm_num [getRecommendations, candidateActions, riskUsed,
      profileRecScenario, engagementLevel, dedupFirst, dedupFirstAux,
      priorityFor]
    decide
  rw [heq]
  exact List.mem_singleton.mpr rfl

/-- Witness for C8 at a concrete profile and returned recommendation. -/
theorem categorize_precedence_witness :
    (⟨"Discuss upgrade opportunities", "High", "Commercial"⟩ :
      Recommendation).category ∈
      ["Personal Outreach", "Product Education", "Support Enhancement",
       "Commercial", "Engagement"] :=
  categorize_precedence.2 profileRecScenario _ recScenario_rec_mem

/-- C9: when both keys are present, `churn_probability` is the risk used
and `churn_risk` is ignored (the output is invariant under changing
`churn_risk`); with only `churn_risk` present it is used; with neither, the
risk used is 0 and no high- or medium-tier branch fires (only the
low-revenue candidate can remain). -/
theorem churn_probability_overrides (d : Profile) :
    (∀ p, d.churn_probability = some p →
      riskUsed d = p ∧
      ∀ x, getRecommendations (setChurnRisk x d) = getRecommendations d) ∧
    (∀ r, d.churn_probability = none → d.churn_risk = some r →
      riskUsed d = r) ∧
    (d.churn_probability = none → d.churn_risk = none →
      riskUsed d = 0 ∧
      candidateActions d =
        (if d.monthly_revenue.getD 0 < 100 then lowRevenuePool.take 1 else [])) := by
  refine ⟨?_, ?_, ?_⟩
  · intro p hp
    constructor
    · simp [riskUsed, hp]
    · intro x
      simp only [getRecommendations, candidateActions, riskUsed,
        engagementLevel, setChurnRisk, hp]
  · intro r h1 h2
    simp [riskUsed, h1, h2]
  · intro h1 h2
    have h0 : riskUsed d = 0 := by simp [riskUsed, h1, h2]
    refine ⟨h0, ?_⟩
    simp only [candidateActions, h0]
    norm_num

/-- Witness for C9 at concrete profiles: with `churn_probability` 0.65
present the risk used is 0.65 and `churn_risk` is ignored; with neither
key present the risk used is 0. -/
theorem churn_probability_overrides_witness :
    riskUsed profileRecScenario = 65/100 ∧
    getRecommendations (setChurnRisk (some 1) profileRecScenario) =
      getRecommendations profileRecScenario ∧
    riskUsed profileEmpty = 0 := by
  refine ⟨((churn_probability_overrides profileRecScenario).1 (65/100) rfl).1,
    ((churn_probability_overrides profileRecScenario).1 (65/100) rfl).2 (some 1),
    ((churn_probability_overrides profileEmpty).2.2 rfl rfl).1⟩

/-- C10: the eight candidate strings the selection algorithm can ever
append are pairwise distinct, the deduplication step therefore removes
nothing (the recommender is extensionally equal to the same computation
without it), and the pre-truncation candidate list never exceeds 6
entries. -/
theorem dedup_removes_nothing :
    (highChurnLowEngagement.take 2 ++ highChurnLowUsage.take 2 ++
     highChurnSupportIssues.take 1 ++ engagementDropPool.take 2 ++
     lowRevenuePool.take 1).Nodup ∧
    (∀ d : Profile, getRecommendations d = getRecommendationsNoDedup d) ∧
    (∀ d : Profile, (candidateActions d).length ≤ 6) := by
  refine ⟨by decide, ?_, ?_⟩
  · intro d
    have h : dedupFirst (candidateActions d) = candidateActions d := by
      simp only [candidateActions]
      split_ifs <;> rfl
    simp only [getRecommendations, getRecommendationsNoDedup, h]
  · intro d
    simp only [candidateActions]
    split_ifs <;> decide

/-- C5 counterexample: `predict_churn` can raise.  With no trained model
and a non-numeric `tenure_months` value, the rule-based fallback raises
`TypeError` inside the `except` handler and the error propagates to the
caller. -/
theorem predict_churn_raises_on_string :
    predictChurn none dynProfileBad = Except.error () := rfl

/-- An absent-or-numeric value defaults to a number. -/
lemma isNumVal_getD (v : Option PyVal) (h : isNumVal v = true) :
    ∃ q, v.getD (.num 0) = .num q := by
  match v with
  | none => exact ⟨0, rfl⟩
  | some (.num q) => exact ⟨q, rfl⟩
  | some (.str s) => simp [isNumVal] at h

/-- On an all-numeric mapping the rule-based estimator succeeds and its
value lies in [0, 1]. -/
lemma ruleBasedDyn_ok (d : DynProfile)
    (h1 : isNumVal d.tenure_months = true)
    (h2 : isNumVal d.monthly_revenue = true)
    (h3 : isNumVal d.total_interactions = true)
    (h4 : isNumVal d.last_login_days = true) :
    ∃ q, ruleBasedDyn d = Except.ok q ∧ 0 ≤ q ∧ q ≤ 1 := by
  obtain ⟨t, ht⟩ := isNumVal_getD _ h1
  obtain ⟨r, hr⟩ := isNumVal_getD _ h2
  obtain ⟨i, hi⟩ := isNumVal_getD _ h3
  obtain ⟨l, hl⟩ := isNumVal_getD _ h4
  refine ⟨min ((if t < 3 then (3:ℚ)/10 else if t < 12 then 1/10 else 0) +
      (if r < 50 then (2:ℚ)/10 else if r < 100 then 1/10 else 0) +
      (if i < 5 then (2:ℚ)/10 else 0) +
      (if l > 30 then (3:ℚ)/10 else if l > 7 then 1/10 else 0)) 1,
    ?_, ?_, min_le_right _ _⟩
  · simp only [ruleBasedDyn, ht, hr, hi, hl, tenureInc, revenueInc,
      interactionsInc, lastLoginInc]
  · refine le_min ?_ (by norm_num)
    split_ifs <;> norm_num

/-- C5 amended: for every artifact state (no model, or a model that may
succeed or fail) and every attribute mapping whose values are absent or
numeric, `predict_churn` never raises and returns a probability in [0, 1]
(assuming a successful trained prediction is itself in [0, 1], as
`predict_proba` guarantees).  For non-numeric values the fallback itself
raises, per the counterexample. -/
theorem predict_churn_total_on_numeric
    (model : Option (DynProfile → Except Unit ℚ)) (d : DynProfile)
    (h1 : isNumVal d.tenure_months = true)
    (h2 : isNumVal d.monthly_revenue = true)
    (h3 : isNumVal d.total_interactions = true)
    (h4 : isNumVal d.last_login_days = true)
    (hm : ∀ f, model = some f → ∀ p, f d = Except.ok p → 0 ≤ p ∧ p ≤ 1) :
    ∃ p, predictChurn model d = Except.ok p ∧ 0 ≤ p ∧ p ≤ 1 := by
  obtain ⟨q, hq, hq0, hq1⟩ := ruleBasedDyn_ok d h1 h2 h3 h4
  match model with
  | none =>
    exact ⟨q, by simp only [predictChurn, hq], hq0, hq1⟩
  | some f =>
    match hfd : f d with
    | .ok p =>
      obtain ⟨hp0, hp1⟩ := hm f rfl p hfd
      exact ⟨p, by simp only [predictChurn, hfd], hp0, hp1⟩
    | .error e =>
      exact ⟨q, by simp only [predictChurn, hfd, hq], hq0, hq1⟩

/-- Witness for C5's amended theorem: no trained model, all-numeric
profile. -/
theorem predict_churn_total_witness :
    ∃ p, predictChurn none dynProfileNum = Except.ok p ∧ 0 ≤ p ∧ p ≤ 1 :=
  predict_churn_total_on_numeric none dynProfileNum rfl rfl rfl rfl
    (fun _ hf => nomatch hf)

end CustomerSuccess
